import Mathlib

/-!
Shallow embedding of the HelioViewer database population script
(`install/install.py`).  Pure Python string operations are modelled on
`List Char` via `String.mk`/`String.data`; the MySQL cursor is modelled as a
collaborator function `Stmt → Bool` (`true` = the insert was accepted,
`false` = the statement raised `MySQLdb.Error`, which the script catches,
prints and ignores); Python exceptions that the script does NOT catch
(`KeyError` from a dict lookup, `ValueError` from `int()` or
`datetime.datetime`) are modelled with `Except PyError`, aborting the run.
-/

set_option maxRecDepth 4000

/-- Python slice `s[a:b]` (for `0 ≤ a ≤ b`): clamps at the string length. -/
def pySlice (s : String) (a b : Nat) : String :=
  String.mk ((s.data.take b).drop a)

/-- Python slice `s[:-n]` for `n > 0`: everything but the last `n` characters. -/
def pyDropLast (s : String) (n : Nat) : String :=
  String.mk (s.data.take (s.data.length - n))

/-- Python slice `s[-n:]` for `n > 0`: the last `n` characters (the whole
string when it is shorter than `n`). -/
def pySuffix (s : String) (n : Nat) : String :=
  String.mk (s.data.drop (s.data.length - n))

/-- Independent rendering of "the substring at character positions `a`-`b`",
used to state the offset claims: drop `a` characters, then take `b - a`. -/
def charRange (s : String) (a b : Nat) : String :=
  String.mk ((s.data.drop a).take (b - a))

/-- Python `s.rjust(w, c)`: left-pad with `c` up to width `w`. -/
def pyRjust (s : String) (w : Nat) (c : Char) : String :=
  String.mk (List.replicate (w - s.data.length) c ++ s.data)

/-- `os.path.join(path, child)` for a `child` that is a plain entry name. -/
def pathJoin (path child : String) : String :=
  if path = "" then child
  else if pySuffix path 1 = "/" then path ++ child
  else path ++ "/" ++ child

/-- Index of the last `'/'` in a character list, if any. -/
def lastSlashPos (l : List Char) : Option Nat :=
  match l.reverse.findIdx? (· = '/') with
  | none => none
  | some j => some (l.length - 1 - j)

/-- Remove trailing slashes. -/
def rstripSlash (l : List Char) : List Char :=
  (l.reverse.dropWhile (· = '/')).reverse

/-- `os.path.split(p)` (posix): split at the final slash; the head keeps no
trailing slash unless it consists of slashes only. -/
def pySplitPath (s : String) : String × String :=
  match lastSlashPos s.data with
  | none => ("", s)
  | some i =>
    let head := s.data.take (i + 1)
    let tail := s.data.drop (i + 1)
    let head := if head.all (· = '/') then head else rstripSlash head
    (String.mk head, String.mk tail)

/-- The uncaught Python exceptions the script can die with. -/
inductive PyError where
  | keyError (key : String)
  | valueError (s : String)
deriving DecidableEq, Repr

/-- The timestamp handed to `datetime.datetime(year, mon, day, hour, min, sec)`. -/
structure PyDatetime where
  year : Int
  mon : Int
  day : Int
  hour : Int
  min : Int
  sec : Int
deriving DecidableEq, Repr

/-- The fields sliced out of a filename by `processImages` /
`processJPEG2000Images` (lines 121-130 and 73-82 of `install.py`). -/
structure Descriptor where
  year : Int
  mon : Int
  day : Int
  hour : Int
  min : Int
  sec : Int
  obs : String
  inst : String
  det : String
  meas : String
deriving DecidableEq, Repr

def Descriptor.date (d : Descriptor) : PyDatetime :=
  ⟨d.year, d.mon, d.day, d.hour, d.min, d.sec⟩

/-- Gregorian leap year, as `datetime` uses it. -/
def isLeap (y : Int) : Bool :=
  (y % 4 == 0 && y % 100 != 0) || y % 400 == 0

def daysInMonth (y m : Int) : Int :=
  if m = 2 then (if isLeap y then 29 else 28)
  else if m = 4 ∨ m = 6 ∨ m = 9 ∨ m = 11 then 30
  else 31

/-- Validity condition enforced by `datetime.datetime(...)`; violating it
raises `ValueError`. -/
def ValidDatetime (y mo d h mi s : Int) : Prop :=
  1 ≤ y ∧ y ≤ 9999 ∧ 1 ≤ mo ∧ mo ≤ 12 ∧ 1 ≤ d ∧ d ≤ daysInMonth y mo ∧
  0 ≤ h ∧ h < 24 ∧ 0 ≤ mi ∧ mi < 60 ∧ 0 ≤ s ∧ s < 60

instance (y mo d h mi s : Int) : Decidable (ValidDatetime y mo d h mi s) := by
  unfold ValidDatetime; infer_instance

/-- Digits-only accumulator for the integer parser. -/
def strDigits : List Char → Nat → Option Nat
  | [], acc => some acc
  | c :: rest, acc =>
    if c.isDigit then strDigits rest (acc * 10 + (c.toNat - 48)) else none

/-- Parse a non-empty all-digit character list. -/
def strToNat? (l : List Char) : Option Nat :=
  match l with
  | [] => none
  | _ => strDigits l 0

/-- Python `int(s)` on a trimmed literal: an optional sign followed by at
least one decimal digit; anything else raises `ValueError` (`none`). -/
def strToInt? (s : String) : Option Int :=
  match s.data with
  | '-' :: rest => (strToNat? rest).map fun n => -(n : Int)
  | '+' :: rest => (strToNat? rest).map fun n => (n : Int)
  | l => (strToNat? l).map fun n => (n : Int)

/-- The field extraction of `processImages` (install.py lines 121-136) and,
identically, `processJPEG2000Images` (lines 73-90): fixed-offset slices, with
`int(...)` failures and `datetime` range violations raising `ValueError`,
which the script never catches. -/
def parseImageFields (file : String) : Except PyError Descriptor :=
  match strToInt? (pySlice file 0 4) with
  | none => .error (.valueError (pySlice file 0 4))
  | some year =>
  match strToInt? (pySlice file 5 7) with
  | none => .error (.valueError (pySlice file 5 7))
  | some mon =>
  match strToInt? (pySlice file 8 10) with
  | none => .error (.valueError (pySlice file 8 10))
  | some day =>
  match strToInt? (pySlice file 11 13) with
  | none => .error (.valueError (pySlice file 11 13))
  | some hour =>
  match strToInt? (pySlice file 13 15) with
  | none => .error (.valueError (pySlice file 13 15))
  | some min =>
  match strToInt? (pySlice file 15 17) with
  | none => .error (.valueError (pySlice file 15 17))
  | some sec =>
    if ValidDatetime year mon day hour min sec then
      .ok ⟨year, mon, day, hour, min, sec,
           pySlice file 18 22, pySlice file 23 26,
           pySlice file 27 30, pySlice file 31 34⟩
    else .error (.valueError "datetime")

/-- The tile-storage configuration produced by `getStorageReqs`, which loops
until the user picks one of exactly these three values. -/
inductive StorageMethod where
  | filesystem
  | database
  | both
deriving DecidableEq, Repr

/-- The two INSERT statement shapes the script issues.  `imageInsert` with
`id = none` is the JPEG2000 path (`INSERT INTO image VALUES(NULL, ...)`);
`tileInsert`'s two `Option String` fields are the URL column and the
escaped-blob column (a Python `null` is `none`). -/
inductive Stmt where
  | imageInsert (id : Option Int) (measurementId : Int) (date : PyDatetime)
      (filetype : String)
  | tileInsert (imageId : Int) (x y zoom : Int) (url : Option String)
      (content : Option String)
deriving DecidableEq, Repr

/-- MySQLdb.escape_string, modelled character by character. -/
def escapeChar (c : Char) : List Char :=
  if c = '\\' then ['\\', '\\']
  else if c = '\'' then ['\\', '\'']
  else if c = '"' then ['\\', '"']
  else if c = '\n' then ['\\', 'n']
  else if c = '\r' then ['\\', 'r']
  else if c = Char.ofNat 0 then ['\\', '0']
  else if c = Char.ofNat 26 then ['\\', 'Z']
  else [c]

def escape_string (s : String) : String :=
  String.mk (s.data.map escapeChar).flatten

/-- Python dict assignment `d[k] = v` on an association list: overwrite the
existing binding for `k`, else append a new one. -/
def dictInsert (d : List (String × Int)) (k : String) (v : Int) :
    List (String × Int) :=
  match d with
  | [] => [(k, v)]
  | (k0, v0) :: rest =>
    if k0 = k then (k0, v) :: rest else (k0, v0) :: dictInsert rest k v

/-- Python dict lookup `d[k]` (the `Option` is `none` exactly when Python
would raise `KeyError`). -/
def dictFind (d : List (String × Int)) (k : String) : Option Int :=
  match d with
  | [] => none
  | (k0, v0) :: rest => if k0 = k then some v0 else dictFind rest k

/-- Python `d.has_key(k)` / appending dict used by `processMetaFiles`:
`images[image].append(zoomlevel)`, creating the entry first when absent. -/
def dictAppend (d : List (String × List String)) (k v : String) :
    List (String × List String) :=
  match d with
  | [] => [(k, [v])]
  | (k0, vs) :: rest =>
    if k0 = k then (k0, vs ++ [v]) :: rest else (k0, vs) :: dictAppend rest k v

/-- A node of the file tree handed to `traverseDirectory`: `os.path.isdir`
distinguishes directories (recursed into) from plain files. -/
inductive FSNode where
  | file (name : String)
  | dir (name : String) (children : List FSNode)
deriving Repr

mutual
/-- One `os.listdir` entry of `traverseDirectory` (install.py lines 34-44):
directories are recursed into; a file whose joined path ends in `meta`
contributes `node[:-5]` to the meta list, else one ending in `jp2`
contributes `node[:-4]` to the jp2 list, else it is ignored. -/
def traverseNode (path : String) : FSNode → List String × List String
  | .file name =>
    let node := pathJoin path name
    if pySuffix node 4 = "meta" then ([pyDropLast node 5], [])
    else if pySuffix node 3 = "jp2" then ([], [pyDropLast node 4])
    else ([], [])
  | .dir name children =>
    traverseChildren (pathJoin path name) children

/-- The `for child in os.listdir(path)` loop body, extending both lists. -/
def traverseChildren (path : String) : List FSNode → List String × List String
  | [] => ([], [])
  | c :: cs =>
    let r := traverseNode path c
    let rs := traverseChildren path cs
    (r.1 ++ rs.1, r.2 ++ rs.2)
end

/-- `traverseDirectory(path)` over a modelled directory listing. -/
def traverseDirectory (path : String) (children : List FSNode) :
    List String × List String :=
  traverseChildren path children

/-- The grouping key `image = os.path.join(dir, file[:-3])` computed by
`processMetaFiles` (install.py lines 52-56) for one meta stem `m`, where
`dir, file = os.path.split(m)`. -/
def metaKey (m : String) : String :=
  pathJoin (pySplitPath m).1 (pyDropLast (pySplitPath m).2 3)

/-- The zoom level `zoomlevel = file[-2:]` recorded by `processMetaFiles`
(install.py line 57) for one meta stem `m`. -/
def metaZoom (m : String) : String :=
  pySuffix (pySplitPath m).2 2

/-- `processMetaFiles` (install.py lines 48-65): group meta-file stems into a
dict keyed by `os.path.join(dir, file[:-3])`, each holding the list of
`file[-2:]` zoom levels encountered. -/
def processMetaFiles (meta : List String) : List (String × List String) :=
  meta.foldl (fun images m => dictAppend images (metaKey m) (metaZoom m)) []

/-- `getMeasurementIds` (install.py lines 195-215): rows of the detector /
measurement join, `(detector.abbreviation, measurement.abbreviation,
measurement.id)`, folded into a dict keyed by plain concatenation
`meas[0] + meas[1]`. -/
def getMeasurementIds (rows : List (String × String × Int)) :
    List (String × Int) :=
  rows.foldl (fun m r => dictInsert m (r.1 ++ r.2.1) r.2.2) []

/-- `getStartingId` (install.py lines 217-231): `fetchone` of the max-id query
gives `some maxId` or `none` for an empty table; the script returns
`int(result[0]) + 1` if a row came back, else `0`. -/
def getStartingId (result : Option Int) : Int :=
  match result with
  | some v => v + 1
  | none => 0

/-- `processJPEG2000Images` (install.py lines 67-96): for each jp2 stem,
split off the basename, slice the fields, build the `INSERT INTO image
VALUES(NULL, ...)` statement — evaluating `measurementIds[det + meas]`,
which raises an uncaught `KeyError` when absent — execute it with only
`MySQLdb.Error` caught, and continue. -/
def processJPEG2000Images (measurementIds : List (String × Int))
    (cursor : Stmt → Bool) : List String → Except PyError (List (Stmt × Bool))
  | [] => .ok []
  | img :: rest =>
    let file := (pySplitPath img).2
    match parseImageFields file with
    | .error e => .error e
    | .ok d =>
      match dictFind measurementIds (d.det ++ d.meas) with
      | none => .error (.keyError (d.det ++ d.meas))
      | some mid =>
        let stmt := Stmt.imageInsert none mid d.date "jp2"
        let r := cursor stmt
        match processJPEG2000Images measurementIds cursor rest with
        | .error e => .error e
        | .ok restR => .ok ((stmt, r) :: restR)

/-- `baseurl` normalisation of install.py lines 112-116: empty input becomes
the default, and a trailing `/` is appended when missing. -/
def normalizeBaseUrl (s : String) : String :=
  let s := if s = "" then "http://localhost/tiles/" else s
  if pySuffix s 1 = "/" then s else s ++ "/"

/-- `urlparse.urljoin(baseurl, filepath)` in the configuration the script
uses (an absolute base ending in `/` joined with a relative path): plain
concatenation. -/
def urljoin (base path : String) : String := base ++ path

/-- The zoom slice `tile_name[35:37]` of install.py line 161. -/
def tileZoom (tile_name : String) : String := pySlice tile_name 35 37

/-- The tile-x slice `tile_name[38:41]` of install.py line 162. -/
def tileX (tile_name : String) : String := pySlice tile_name 38 41

/-- The tile-y slice `tile_name[42:45]` of install.py line 163. -/
def tileY (tile_name : String) : String := pySlice tile_name 42 45

/-- The `filepath` string built at install.py lines 169-171. -/
def tileFilepath (d : Descriptor) (file filetype zoom x y : String) : String :=
  toString d.year ++ "/" ++ pyRjust (toString d.mon) 2 '0' ++ "/" ++
  pyRjust (toString d.day) 2 '0' ++ "/" ++ pyRjust (toString d.hour) 2 '0' ++
  "/" ++ d.obs ++ "/" ++ d.inst ++ "/" ++ d.det ++ "/" ++ d.meas ++ "/" ++
  file ++ "_" ++ zoom ++ "_" ++ x ++ "_" ++ y ++ "." ++ filetype

/-- The three-way `if storageMethod == ...` of install.py lines 175-183,
building the tile INSERT statement. -/
def tileSql (storageMethod : StorageMethod) (id xi yi zi : Int)
    (url blob : String) : Stmt :=
  match storageMethod with
  | .database => .tileInsert id xi yi zi none (some (escape_string blob))
  | .filesystem => .tileInsert id xi yi zi (some url) none
  | .both => .tileInsert id xi yi zi (some url) (some (escape_string blob))

/-- The `for tile in glob.glob(img + "*")` loop of install.py lines 158-191:
skip meta/jp2 files, slice zoom/x/y from the basename, read the blob, build
the URL, convert `int(x)`, `int(y)`, `int(zoom)` (uncaught `ValueError` on
failure), execute the INSERT with only `MySQLdb.Error` caught, continue. -/
def processTiles (storageMethod : StorageMethod) (baseurl : String)
    (d : Descriptor) (file filetype : String) (id : Int)
    (readFile : String → String) (cursor : Stmt → Bool) :
    List String → Except PyError (List (Stmt × Bool))
  | [] => .ok []
  | tile :: rest =>
    if pySuffix tile 4 ≠ "meta" ∧ pySuffix tile 3 ≠ "jp2" then
      let tile_name := (pySplitPath tile).2
      let zoom := tileZoom tile_name
      let x := tileX tile_name
      let y := tileY tile_name
      let blob := readFile tile
      let url := urljoin baseurl (tileFilepath d file filetype zoom x y)
      match strToInt? x with
      | none => .error (.valueError x)
      | some xi =>
      match strToInt? y with
      | none => .error (.valueError y)
      | some yi =>
      match strToInt? zoom with
      | none => .error (.valueError zoom)
      | some zi =>
        let stmt := tileSql storageMethod id xi yi zi url blob
        let r := cursor stmt
        match processTiles storageMethod baseurl d file filetype id readFile
            cursor rest with
        | .error e => .error e
        | .ok restR => .ok ((stmt, r) :: restR)
    else
      processTiles storageMethod baseurl d file filetype id readFile cursor rest

/-- `processImages` (install.py lines 99-193).  `tilesOf` models
`glob.glob(img + "*")` and `readFile` models `open(tile, 'rb').read()`.  For
each image key: split off the basename, slice the fields (uncaught
`ValueError` aborts), pick the filetype, look up
`measurementIds[det + meas]` (uncaught `KeyError` aborts), execute the image
INSERT with only `MySQLdb.Error` caught, process the tile files, then move
to the next image with `id += 1`. -/
def processImages (storageMethod : StorageMethod) (baseurlInput : String)
    (measurementIds : List (String × Int)) (tilesOf : String → List String)
    (readFile : String → String) (cursor : Stmt → Bool) :
    List (String × List String) → Int → Except PyError (List (Stmt × Bool))
  | [], _ => .ok []
  | (img, _zoomLevels) :: rest, id =>
    let file := (pySplitPath img).2
    match parseImageFields file with
    | .error e => .error e
    | .ok d =>
      let filetype := if d.inst = "LAS" then "png" else "jpg"
      match dictFind measurementIds (d.det ++ d.meas) with
      | none => .error (.keyError (d.det ++ d.meas))
      | some mid =>
        let stmt := Stmt.imageInsert (some id) mid d.date filetype
        let r := cursor stmt
        match processTiles storageMethod (normalizeBaseUrl baseurlInput) d file
            filetype id readFile cursor (tilesOf img) with
        | .error e => .error e
        | .ok tl =>
          match processImages storageMethod baseurlInput measurementIds tilesOf
              readFile cursor rest (id + 1) with
          | .error e => .error e
          | .ok restR => .ok ((stmt, r) :: (tl ++ restR))

/-- Which of a tile row's two payload columns a storage method populates. -/
def PayloadFor (m : StorageMethod) (url content : Option String) : Prop :=
  match m with
  | .filesystem => url ≠ none ∧ content = none
  | .database => url = none ∧ content ≠ none
  | .both => url ≠ none ∧ content ≠ none

/-- The statement is a tile INSERT whose payload columns match the storage
method. -/
def TilePayload (m : StorageMethod) : Stmt → Prop
  | .tileInsert _ _ _ _ url content => PayloadFor m url content
  | _ => False

/-- The locally allocated id carried by a tiled-image INSERT (`none` for any
other statement, including the JPEG2000 `NULL`-id inserts). -/
def imageIdOf (p : Stmt × Bool) : Option Int :=
  match p.1 with
  | .imageInsert (some i) _ _ _ => some i
  | _ => none

/-- The sequence of locally allocated image ids in an execution log. -/
def imageIds (l : List (Stmt × Bool)) : List Int :=
  l.filterMap imageIdOf

/-- Forget the per-statement cursor outcome, keeping which statements a run
attempted (or the exception it died with). -/
def attempted (r : Except PyError (List (Stmt × Bool))) :
    Except PyError (List Stmt) :=
  r.map (List.map Prod.fst)

/-- Python slicing `s[a:b]` agrees with the independent "substring at
character positions `a`-`b`" rendering. -/
theorem pySlice_eq_charRange (s : String) (a b : Nat) :
    pySlice s a b = charRange s a b := by
  unfold pySlice charRange
  rw [List.drop_take]

/-- Dropping the last `n` characters and re-appending them restores the
string. -/
theorem pyDropLast_append_pySuffix (s : String) (n : Nat) :
    pyDropLast s n ++ pySuffix s n = s := by
  unfold pyDropLast pySuffix
  have h : String.mk (s.data.take (s.data.length - n)) ++
      String.mk (s.data.drop (s.data.length - n)) =
      String.mk (s.data.take (s.data.length - n) ++
        s.data.drop (s.data.length - n)) := rfl
  rw [h, List.take_append_drop]

/-- After `dictAppend d k v`, key `k` holds a list containing `v`. -/
theorem dictAppend_mem_self (d : List (String × List String)) (k v : String) :
    ∃ vs, (k, vs) ∈ dictAppend d k v ∧ v ∈ vs := by
  induction d with
  | nil => exact ⟨[v], by simp [dictAppend], by simp⟩
  | cons p rest ih =>
    obtain ⟨k0, vs0⟩ := p
    by_cases h : k0 = k
    · subst h
      exact ⟨vs0 ++ [v], by simp [dictAppend], by simp⟩
    · obtain ⟨vs, hmem, hv⟩ := ih
      exact ⟨vs, by simp [dictAppend, h, hmem], hv⟩

/-- `dictAppend` never loses an already-recorded zoom level. -/
theorem dictAppend_mem_preserve (d : List (String × List String))
    (k v k0 z : String) (h : ∃ vs, (k0, vs) ∈ d ∧ z ∈ vs) :
    ∃ vs, (k0, vs) ∈ dictAppend d k v ∧ z ∈ vs := by
  induction d with
  | nil => simp at h
  | cons p rest ih =>
    obtain ⟨k1, vs1⟩ := p
    obtain ⟨vs, hmem, hz⟩ := h
    rcases List.mem_cons.mp hmem with heq | htail
    · obtain ⟨hk, hvs⟩ := Prod.mk.injEq .. ▸ heq
      subst hk; subst hvs
      by_cases hk1 : k0 = k
      · subst hk1
        exact ⟨vs ++ [v], by simp [dictAppend], by simp [hz]⟩
      · exact ⟨vs, by simp [dictAppend, hk1], hz⟩
    · by_cases hk1 : k1 = k
      · subst hk1
        exact ⟨vs, by simp [dictAppend, htail], hz⟩
      · obtain ⟨vs2, hmem2, hz2⟩ := ih ⟨vs, htail, hz⟩
        exact ⟨vs2, by simp [dictAppend, hk1, hmem2], hz2⟩

/-- Folding further meta stems preserves a recorded (key, zoom) pair. -/
theorem processMetaFiles_fold_preserve (meta : List String)
    (d : List (String × List String)) (k z : String)
    (h : ∃ vs, (k, vs) ∈ d ∧ z ∈ vs) :
    ∃ vs, (k, vs) ∈
      meta.foldl (fun images m => dictAppend images (metaKey m) (metaZoom m)) d
      ∧ z ∈ vs := by
  induction meta generalizing d with
  | nil => simpa using h
  | cons m rest ih => exact ih _ (dictAppend_mem_preserve _ _ _ _ _ h)

/-- Every meta stem of the input ends up, under its computed key, with its
computed zoom level recorded. -/
theorem processMetaFiles_mem_aux (meta : List String)
    (d : List (String × List String)) (m : String) (hm : m ∈ meta) :
    ∃ vs, (metaKey m, vs) ∈
      meta.foldl (fun images m => dictAppend images (metaKey m) (metaZoom m)) d
      ∧ metaZoom m ∈ vs := by
  induction meta generalizing d with
  | nil => cases hm
  | cons x rest ih =>
    rcases List.mem_cons.mp hm with heq | htail
    · subst heq
      exact processMetaFiles_fold_preserve rest _ _ _
        (dictAppend_mem_self d (metaKey m) (metaZoom m))
    · exact ih _ htail

/-- The key list after `dictAppend`: unchanged when the key was present, else
extended with the new key at the end. -/
theorem dictAppend_keys (d : List (String × List String)) (k v : String) :
    (dictAppend d k v).map Prod.fst =
      if k ∈ d.map Prod.fst then d.map Prod.fst
      else d.map Prod.fst ++ [k] := by
  induction d with
  | nil => simp [dictAppend]
  | cons p rest ih =>
    obtain ⟨k0, vs0⟩ := p
    by_cases h : k0 = k
    · subst h; simp [dictAppend]
    · have hne : ¬k = k0 := fun hk => h hk.symm
      by_cases h2 : k ∈ rest.map Prod.fst
      · simp [dictAppend, h, ih, h2, hne]
      · simp [dictAppend, h, ih, h2, hne]

/-- `dictAppend` keeps the key list duplicate-free. -/
theorem dictAppend_nodup (d : List (String × List String)) (k v : String)
    (h : (d.map Prod.fst).Nodup) :
    ((dictAppend d k v).map Prod.fst).Nodup := by
  rw [dictAppend_keys]
  by_cases h2 : k ∈ d.map Prod.fst
  · simpa [h2]
  · simp only [h2, if_false]
    exact List.Nodup.append h (List.nodup_singleton k)
      (by simpa [List.disjoint_singleton] using h2)

/-- Folding meta stems keeps the key list duplicate-free. -/
theorem processMetaFiles_fold_nodup (meta : List String)
    (d : List (String × List String)) (h : (d.map Prod.fst).Nodup) :
    ((meta.foldl
        (fun images m => dictAppend images (metaKey m) (metaZoom m)) d).map
      Prod.fst).Nodup := by
  induction meta generalizing d with
  | nil => simpa using h
  | cons m rest ih => exact ih _ (dictAppend_nodup _ _ _ h)

/-- Key membership after a Python dict assignment. -/
theorem dictInsert_keys_mem (d : List (String × Int)) (k : String) (v : Int)
    (k0 : String) :
    k0 ∈ (dictInsert d k v).map Prod.fst ↔
      k0 ∈ d.map Prod.fst ∨ k0 = k := by
  induction d with
  | nil => simp [dictInsert]
  | cons p rest ih =>
    obtain ⟨k1, v1⟩ := p
    by_cases h : k1 = k
    · subst h; simp [dictInsert]; tauto
    · simp [dictInsert, h, ih]; tauto

/-- Folding further join rows preserves key membership. -/
theorem getMeasurementIds_fold_preserve (rows : List (String × String × Int))
    (d : List (String × Int)) (k : String) (h : k ∈ d.map Prod.fst) :
    k ∈ (rows.foldl
        (fun m r => dictInsert m (r.1 ++ r.2.1) r.2.2) d).map Prod.fst := by
  induction rows generalizing d with
  | nil => simpa using h
  | cons x rest ih =>
    exact ih _ ((dictInsert_keys_mem _ _ _ _).mpr (Or.inl h))

/-- Every join row's concatenated key is a key of the folded dict. -/
theorem getMeasurementIds_fold_mem (rows : List (String × String × Int))
    (d : List (String × Int)) (r : String × String × Int) (hr : r ∈ rows) :
    (r.1 ++ r.2.1) ∈ (rows.foldl
        (fun m r => dictInsert m (r.1 ++ r.2.1) r.2.2) d).map Prod.fst := by
  induction rows generalizing d with
  | nil => cases hr
  | cons x rest ih =>
    rcases List.mem_cons.mp hr with heq | htail
    · subst heq
      exact getMeasurementIds_fold_preserve rest _ _
        ((dictInsert_keys_mem _ _ _ _).mpr (Or.inr rfl))
    · exact ih _ htail

/-- Every statement a successful tile loop issues is a tile INSERT whose
payload columns match the storage method. -/
theorem processTiles_shape (tiles : List String) (m : StorageMethod)
    (b : String) (d : Descriptor) (file ft : String) (id : Int)
    (rf : String → String) (cur : Stmt → Bool) (l : List (Stmt × Bool))
    (h : processTiles m b d file ft id rf cur tiles = .ok l) :
    ∀ p ∈ l, TilePayload m p.1 := by
  induction tiles generalizing l with
  | nil =>
    simp only [processTiles] at h
    cases h
    intro p hp
    cases hp
  | cons tile rest ih =>
    intro p hp
    simp only [processTiles] at h
    split at h
    · split at h
      · cases h
      · split at h
        · cases h
        · split at h
          · cases h
          · split at h
            · cases h
            · rename_i restR heq
              cases h
              rcases List.mem_cons.mp hp with hh | ht
              · subst hh
                cases m <;> simp [TilePayload, tileSql, PayloadFor]
              · exact ih restR heq p ht
    · exact ih l h p hp

/-- Which statements the tile loop attempts (and whether it aborts) does not
depend on which statements the cursor rejects. -/
theorem processTiles_attempted (tiles : List String) (m : StorageMethod)
    (b : String) (d : Descriptor) (file ft : String) (id : Int)
    (rf : String → String) (cur cur2 : Stmt → Bool) :
    attempted (processTiles m b d file ft id rf cur tiles) =
      attempted (processTiles m b d file ft id rf cur2 tiles) := by
  induction tiles with
  | nil => rfl
  | cons tile rest ih =>
    by_cases hc : pySuffix tile 4 ≠ "meta" ∧ pySuffix tile 3 ≠ "jp2"
    · cases hx : strToInt? (tileX (pySplitPath tile).2) with
      | none => simp [processTiles, hc, hx]
      | some xi =>
        cases hy : strToInt? (tileY (pySplitPath tile).2) with
        | none => simp [processTiles, hc, hx, hy]
        | some yi =>
          cases hz : strToInt? (tileZoom (pySplitPath tile).2) with
          | none => simp [processTiles, hc, hx, hy, hz]
          | some zi =>
            have hih := ih
            rcases e1 : processTiles m b d file ft id rf cur rest with e | l1 <;>
              rcases e2 : processTiles m b d file ft id rf cur2 rest with f | l2 <;>
              rw [e1, e2] at hih <;>
              simp [attempted, Except.map] at hih <;>
              simp [processTiles, hc, hx, hy, hz, e1, e2, attempted,
                Except.map, hih]
    · simp only [processTiles, if_neg hc]
      exact ih

/-- Which statements `processImages` attempts (and whether it aborts) does
not depend on which statements the cursor rejects. -/
theorem processImages_attempted (imgs : List (String × List String))
    (m : StorageMethod) (b : String) (tbl : List (String × Int))
    (tf : String → List String) (rf : String → String) (cur cur2 : Stmt → Bool)
    (start : Int) :
    attempted (processImages m b tbl tf rf cur imgs start) =
      attempted (processImages m b tbl tf rf cur2 imgs start) := by
  induction imgs generalizing start with
  | nil => rfl
  | cons x rest ih =>
    obtain ⟨img, zs⟩ := x
    cases hp : parseImageFields (pySplitPath img).2 with
    | error e => simp [processImages, hp]
    | ok d =>
      cases hf : dictFind tbl (d.det ++ d.meas) with
      | none => simp [processImages, hp, hf]
      | some mid =>
        have htl := processTiles_attempted (tf img) m (normalizeBaseUrl b) d
          (pySplitPath img).2 (if d.inst = "LAS" then "png" else "jpg") start
          rf cur cur2
        have hih := ih (start + 1)
        rcases e1 : processTiles m (normalizeBaseUrl b) d (pySplitPath img).2
            (if d.inst = "LAS" then "png" else "jpg") start rf cur
            (tf img) with e | tl1 <;>
          rcases e2 : processTiles m (normalizeBaseUrl b) d (pySplitPath img).2
            (if d.inst = "LAS" then "png" else "jpg") start rf cur2
            (tf img) with f | tl2 <;>
          rw [e1, e2] at htl <;>
          simp [attempted, Except.map] at htl
        · simp [processImages, hp, hf, e1, e2, attempted, Except.map, htl]
        · rcases r1 : processImages m b tbl tf rf cur rest (start + 1)
              with g | rl1 <;>
            rcases r2 : processImages m b tbl tf rf cur2 rest (start + 1)
              with g2 | rl2 <;>
            rw [r1, r2] at hih <;>
            simp [attempted, Except.map] at hih <;>
            simp [processImages, hp, hf, e1, e2, r1, r2, attempted,
              Except.map, htl, hih]

/-- Every statement a successful `processImages` run issues is either a
tiled-image INSERT carrying a locally allocated id, or a tile INSERT whose
payload matches the storage method. -/
theorem processImages_shape (imgs : List (String × List String))
    (m : StorageMethod) (b : String) (tbl : List (String × Int))
    (tf : String → List String) (rf : String → String) (cur : Stmt → Bool)
    (start : Int) (log : List (Stmt × Bool))
    (h : processImages m b tbl tf rf cur imgs start = .ok log) :
    ∀ p ∈ log,
      (∃ i mid dt ft, p.1 = Stmt.imageInsert (some i) mid dt ft) ∨
        TilePayload m p.1 := by
  induction imgs generalizing start log with
  | nil =>
    simp only [processImages] at h
    cases h
    intro p hp
    cases hp
  | cons x rest ih =>
    obtain ⟨img, zs⟩ := x
    intro p hp
    simp only [processImages] at h
    split at h
    · cases h
    · split at h
      · cases h
      · split at h
        · cases h
        · rename_i tl heqT
          split at h
          · cases h
          · rename_i restR heqR
            cases h
            rcases List.mem_cons.mp hp with hh | ht
            · subst hh
              exact Or.inl ⟨start, _, _, _, rfl⟩
            · rcases List.mem_append.mp ht with h1 | h2
              · exact Or.inr
                  (processTiles_shape _ _ _ _ _ _ _ _ _ _ heqT p h1)
              · exact ih _ _ heqR p h2

/-- A successful tile loop allocates no image ids. -/
theorem imageIds_processTiles (tiles : List String) (m : StorageMethod)
    (b : String) (d : Descriptor) (file ft : String) (id : Int)
    (rf : String → String) (cur : Stmt → Bool) (l : List (Stmt × Bool))
    (h : processTiles m b d file ft id rf cur tiles = .ok l) :
    imageIds l = [] := by
  rw [imageIds, List.filterMap_eq_nil_iff]
  intro p hp
  have hs := processTiles_shape tiles m b d file ft id rf cur l h p hp
  rcases p with ⟨s, r⟩
  cases s with
  | imageInsert i mid dt ft2 => simp [TilePayload] at hs
  | tileInsert a x y z u c => simp [imageIdOf]

/-- The image ids a successful `processImages` run allocates are exactly
`start, start+1, ...`, one per image of the group mapping, in order. -/
theorem imageIds_processImages (imgs : List (String × List String))
    (m : StorageMethod) (b : String) (tbl : List (String × Int))
    (tf : String → List String) (rf : String → String) (cur : Stmt → Bool)
    (start : Int) (log : List (Stmt × Bool))
    (h : processImages m b tbl tf rf cur imgs start = .ok log) :
    imageIds log =
      (List.range imgs.length).map (fun n : Nat => start + (n : Int)) := by
  induction imgs generalizing start log with
  | nil =>
    simp only [processImages] at h
    cases h
    simp [imageIds]
  | cons x rest ih =>
    obtain ⟨img, zs⟩ := x
    simp only [processImages] at h
    split at h
    · cases h
    · split at h
      · cases h
      · split at h
        · cases h
        · rename_i tl heqT
          split at h
          · cases h
          · rename_i restR heqR
            cases h
            have h1 : imageIds tl = [] :=
              imageIds_processTiles _ _ _ _ _ _ _ _ _ _ heqT
            have h2 := ih _ _ heqR
            simp only [imageIds, List.filterMap_cons, List.filterMap_append,
              imageIdOf] at h1 h2 ⊢
            rw [h1, h2]
            simp only [List.length_cons, List.range_succ_eq_map,
              List.map_cons, List.map_map, List.nil_append]
            congr 1
            · simp
            · apply List.map_congr_left
              intro n _
              simp only [Function.comp]
              push_cast
              ring

/-- Reading an index of a mapped `List.range`. -/
theorem map_range_getElem (f : Nat → Int) (len n : Nat) (a : Int)
    (h : ((List.range len).map f)[n]? = some a) : n < len ∧ a = f n := by
  have hlt : n < len := by
    by_contra hc
    rw [List.getElem?_eq_none (by simpa using Nat.le_of_not_lt hc)] at h
    cases h
  refine ⟨hlt, ?_⟩
  rw [List.getElem?_map, List.getElem?_range hlt] at h
  simpa using h.symm

/-- C3: `getStartingId` returns 0 when the image table is empty and `max+1`
when the table's maximum id is `max` (42 for 41); within a single run ids
are allocated locally, and successive tiled-image inserts carry ids that
increase by exactly 1 with no gaps or repeats. -/
theorem c3_idAllocator :
    getStartingId none = 0 ∧ getStartingId (some 41) = 42 ∧
    (∀ maxId : Int, getStartingId (some maxId) = maxId + 1) ∧
    (∀ (m : StorageMethod) (b : String) (tbl : List (String × Int))
        (tf : String → List String) (rf : String → String)
        (cur : Stmt → Bool) (imgs : List (String × List String))
        (start : Int) (log : List (Stmt × Bool)),
      processImages m b tbl tf rf cur imgs start = .ok log →
      ∀ (n : Nat) (a a2 : Int),
        (imageIds log)[n]? = some a →
        (imageIds log)[n + 1]? = some a2 → a2 = a + 1) := by
  refine ⟨rfl, rfl, fun maxId => rfl, ?_⟩
  intro m b tbl tf rf cur imgs start log h n a a2 ha hb
  rw [imageIds_processImages imgs m b tbl tf rf cur start log h] at ha hb
  obtain ⟨h1, e1⟩ := map_range_getElem _ _ _ _ ha
  obtain ⟨h2, e2⟩ := map_range_getElem _ _ _ _ hb
  omega

/-- Witness for C3: a concrete two-image run starting at id 5 allocates ids
5 and 6, consecutive. -/
theorem c3_witness :
    (imageIds
        [(Stmt.imageInsert (some 5) 7 ⟨2008, 10, 1, 12, 6, 32⟩ "jpg", false),
         (Stmt.imageInsert (some 6) 3 ⟨2008, 10, 1, 12, 6, 32⟩ "jpg",
          false)])[0]? = some 5 ∧
    (imageIds
        [(Stmt.imageInsert (some 5) 7 ⟨2008, 10, 1, 12, 6, 32⟩ "jpg", false),
         (Stmt.imageInsert (some 6) 3 ⟨2008, 10, 1, 12, 6, 32⟩ "jpg",
          false)])[1]? = some 6 ∧
    (6 : Int) = 5 + 1 :=
  ⟨rfl, rfl,
    c3_idAllocator.2.2.2 .filesystem "" [("EIT195", 7), ("EIT304", 3)]
      (fun _ => []) (fun _ => "") (fun _ => false)
      [("2008_10_01_120632_SOHO_EIT_EIT_195", ["08"]),
       ("2008_10_01_120632_SOHO_EIT_EIT_304", ["08"])] 5
      [(Stmt.imageInsert (some 5) 7 ⟨2008, 10, 1, 12, 6, 32⟩ "jpg", false),
       (Stmt.imageInsert (some 6) 3 ⟨2008, 10, 1, 12, 6, 32⟩ "jpg", false)]
      rfl 0 5 6 rfl rfl⟩

/-- C10: the locally allocated id counter is incremented exactly once per
image of the group mapping regardless of insert success or failure: the
ids carried by the run's tiled-image inserts are exactly
`start, start+1, ...` in order, one per image, for any cursor behaviour. -/
theorem c10_idConsumption (m : StorageMethod) (b : String)
    (tbl : List (String × Int)) (tf : String → List String)
    (rf : String → String) (cur : Stmt → Bool)
    (imgs : List (String × List String)) (start : Int)
    (log : List (Stmt × Bool))
    (h : processImages m b tbl tf rf cur imgs start = .ok log) :
    imageIds log =
      (List.range imgs.length).map (fun n : Nat => start + (n : Int)) :=
  imageIds_processImages imgs m b tbl tf rf cur start log h

/-- Witness for C10: a run whose every insert is rejected by the store still
consumes ids 0 and 1, one per image. -/
theorem c10_witness :
    imageIds
        [(Stmt.imageInsert (some 0) 7 ⟨2008, 10, 1, 12, 6, 32⟩ "jpg", false),
         (Stmt.imageInsert (some 1) 3 ⟨2008, 10, 1, 12, 6, 32⟩ "jpg",
          false)] =
      (List.range 2).map (fun n : Nat => (0 : Int) + (n : Int)) :=
  c10_idConsumption .filesystem "" [("EIT195", 7), ("EIT304", 3)]
    (fun _ => []) (fun _ => "") (fun _ => false)
    [("2008_10_01_120632_SOHO_EIT_EIT_195", ["08"]),
     ("2008_10_01_120632_SOHO_EIT_EIT_304", ["08"])] 0
    [(Stmt.imageInsert (some 0) 7 ⟨2008, 10, 1, 12, 6, 32⟩ "jpg", false),
     (Stmt.imageInsert (some 1) 3 ⟨2008, 10, 1, 12, 6, 32⟩ "jpg", false)]
    rfl

/-- C6: a store-rejected image-row or tile-row insert (MySQLdb.Error) is
caught per statement: which statements the run attempts, and whether it
completes, are identical no matter which statements the cursor rejects —
a single row failure never aborts the batch. -/
theorem c6_insertFailure_continues (m : StorageMethod) (b : String)
    (tbl : List (String × Int)) (tf : String → List String)
    (rf : String → String) (cur cur2 : Stmt → Bool)
    (imgs : List (String × List String)) (start : Int) :
    attempted (processImages m b tbl tf rf cur imgs start) =
      attempted (processImages m b tbl tf rf cur2 imgs start) :=
  processImages_attempted imgs m b tbl tf rf cur cur2 start

/-- C8: every tile INSERT of a run populates exactly the payload columns its
storage mode dictates — `filesystem`: URL and no blob; `database`: blob and
no URL; `both`: both — and never neither. -/
theorem c8_storageMode (m : StorageMethod) (b : String)
    (tbl : List (String × Int)) (tf : String → List String)
    (rf : String → String) (cur : Stmt → Bool)
    (imgs : List (String × List String)) (start : Int)
    (log : List (Stmt × Bool))
    (h : processImages m b tbl tf rf cur imgs start = .ok log) :
    ∀ p ∈ log, ∀ (i x y z : Int) (u c : Option String),
      p.1 = Stmt.tileInsert i x y z u c →
      PayloadFor m u c ∧ ¬(u = none ∧ c = none) := by
  intro p hp i x y z u c hpt
  rcases processImages_shape imgs m b tbl tf rf cur start log h p hp with
    himg | htile
  · obtain ⟨i2, mid, dt, ft, he⟩ := himg
    rw [hpt] at he
    cases he
  · rw [hpt] at htile
    have hpf : PayloadFor m u c := htile
    refine ⟨hpf, ?_⟩
    rintro ⟨hu, hc⟩
    cases m with
    | filesystem => exact hpf.1 hu
    | database => exact hpf.2 hc
    | both => exact hpf.1 hu

/-- Witness for C8: a concrete `both`-mode run carrying one tile populates
both the URL and the blob column, so neither is empty. -/
theorem c8_witness :
    PayloadFor .both
        (some ("http://localhost/tiles/2008/10/01/12/SOHO/EIT/EIT/195/" ++
          "2008_10_01_120632_SOHO_EIT_EIT_195_08_001_002.jpg"))
        (some "BLOB") ∧
      ¬((some ("http://localhost/tiles/2008/10/01/12/SOHO/EIT/EIT/195/" ++
          "2008_10_01_120632_SOHO_EIT_EIT_195_08_001_002.jpg") :
            Option String) = none ∧
        (some "BLOB" : Option String) = none) :=
  c8_storageMode .both "" [("EIT195", 7)]
    (fun _ => ["2008_10_01_120632_SOHO_EIT_EIT_195_08_001_002"])
    (fun _ => "BLOB") (fun _ => true)
    [("2008_10_01_120632_SOHO_EIT_EIT_195", ["08"])] 5
    [(Stmt.imageInsert (some 5) 7 ⟨2008, 10, 1, 12, 6, 32⟩ "jpg", true),
     (Stmt.tileInsert 5 1 2 8
        (some ("http://localhost/tiles/2008/10/01/12/SOHO/EIT/EIT/195/" ++
          "2008_10_01_120632_SOHO_EIT_EIT_195_08_001_002.jpg"))
        (some "BLOB"), true)]
    rfl
    (Stmt.tileInsert 5 1 2 8
        (some ("http://localhost/tiles/2008/10/01/12/SOHO/EIT/EIT/195/" ++
          "2008_10_01_120632_SOHO_EIT_EIT_195_08_001_002.jpg"))
        (some "BLOB"), true)
    (by simp) 5 1 2 8
    (some ("http://localhost/tiles/2008/10/01/12/SOHO/EIT/EIT/195/" ++
      "2008_10_01_120632_SOHO_EIT_EIT_195_08_001_002.jpg"))
    (some "BLOB") rfl

/-- C7: for every stem accepted by the parser, each field is exactly the
(converted) substring at its documented offset — year 0-4, month 5-7, day
8-10, hour 11-13, minute 13-15, second 15-17, observatory 18-22,
instrument 23-26, detector 27-30, measurement 31-34 — and the tile-name
slices are zoom 35-37, tile x 38-41, tile y 42-45. -/
theorem c7_fieldOffsets :
    (∀ (s : String) (d : Descriptor), parseImageFields s = .ok d →
      strToInt? (charRange s 0 4) = some d.year ∧
      strToInt? (charRange s 5 7) = some d.mon ∧
      strToInt? (charRange s 8 10) = some d.day ∧
      strToInt? (charRange s 11 13) = some d.hour ∧
      strToInt? (charRange s 13 15) = some d.min ∧
      strToInt? (charRange s 15 17) = some d.sec ∧
      d.obs = charRange s 18 22 ∧ d.inst = charRange s 23 26 ∧
      d.det = charRange s 27 30 ∧ d.meas = charRange s 31 34) ∧
    (∀ t : String, tileZoom t = charRange t 35 37 ∧
      tileX t = charRange t 38 41 ∧ tileY t = charRange t 42 45) := by
  constructor
  · intro s d h
    simp only [parseImageFields] at h
    split at h
    · cases h
    · split at h
      · cases h
      · split at h
        · cases h
        · split at h
          · cases h
          · split at h
            · cases h
            · split at h
              · cases h
              · split at h
                · cases h
                  simp only [← pySlice_eq_charRange]
                  refine ⟨?_, ?_, ?_, ?_, ?_, ?_, trivial, trivial,
                    trivial, trivial⟩ <;> assumption
                · cases h
  · intro t
    exact ⟨pySlice_eq_charRange t 35 37, pySlice_eq_charRange t 38 41,
      pySlice_eq_charRange t 42 45⟩

/-- Witness for C7: the parser's output on a concrete stem matches every
documented offset slice. -/
theorem c7_witness :
    strToInt? (charRange "2008_10_01_120632_SOHO_EIT_EIT_195" 0 4) =
      some (2008 : Int) ∧
    strToInt? (charRange "2008_10_01_120632_SOHO_EIT_EIT_195" 5 7) =
      some (10 : Int) ∧
    strToInt? (charRange "2008_10_01_120632_SOHO_EIT_EIT_195" 8 10) =
      some (1 : Int) ∧
    strToInt? (charRange "2008_10_01_120632_SOHO_EIT_EIT_195" 11 13) =
      some (12 : Int) ∧
    strToInt? (charRange "2008_10_01_120632_SOHO_EIT_EIT_195" 13 15) =
      some (6 : Int) ∧
    strToInt? (charRange "2008_10_01_120632_SOHO_EIT_EIT_195" 15 17) =
      some (32 : Int) ∧
    ("SOHO" : String) = charRange "2008_10_01_120632_SOHO_EIT_EIT_195" 18 22 ∧
    ("EIT" : String) = charRange "2008_10_01_120632_SOHO_EIT_EIT_195" 23 26 ∧
    ("EIT" : String) = charRange "2008_10_01_120632_SOHO_EIT_EIT_195" 27 30 ∧
    ("195" : String) = charRange "2008_10_01_120632_SOHO_EIT_EIT_195" 31 34 :=
  c7_fieldOffsets.1 "2008_10_01_120632_SOHO_EIT_EIT_195"
    ⟨2008, 10, 1, 12, 6, 32, "SOHO", "EIT", "EIT", "195"⟩ rfl

/-- Counterexample to C1: with a lookup table lacking the key `EIT195`, a
batch holding the unknown-measurement image first and a known image second
dies with an uncaught `KeyError` — no warning, and the second image is
never processed, contradicting "skips that image ... and continues". -/
theorem c1_counterexample :
    processJPEG2000Images [("EIT304", 3)] (fun _ => true)
      ["2008_10_01_120632_SOHO_EIT_EIT_195",
       "2008_10_01_120632_SOHO_EIT_EIT_304"] =
      .error (.keyError "EIT195") := rfl

/-- C1 (amended): an image whose detector+measurement key is absent from the
measurement lookup table raises an uncaught `KeyError` that aborts the
whole run — the remaining images of the batch are not processed, and no
per-image warning is recorded.  This holds on both the JPEG2000 path and
the tiled-image path. -/
theorem c1_unknownMeasurement_aborts :
    (∀ (img : String) (rest : List String) (tbl : List (String × Int))
        (cur : Stmt → Bool) (d : Descriptor),
      parseImageFields (pySplitPath img).2 = .ok d →
      dictFind tbl (d.det ++ d.meas) = none →
      processJPEG2000Images tbl cur (img :: rest) =
        .error (.keyError (d.det ++ d.meas))) ∧
    (∀ (m : StorageMethod) (b img : String) (zs : List String)
        (rest : List (String × List String)) (tbl : List (String × Int))
        (tf : String → List String) (rf : String → String)
        (cur : Stmt → Bool) (start : Int) (d : Descriptor),
      parseImageFields (pySplitPath img).2 = .ok d →
      dictFind tbl (d.det ++ d.meas) = none →
      processImages m b tbl tf rf cur ((img, zs) :: rest) start =
        .error (.keyError (d.det ++ d.meas))) := by
  constructor
  · intro img rest tbl cur d h1 h2
    simp [processJPEG2000Images, h1, h2]
  · intro m b img zs rest tbl tf rf cur start d h1 h2
    simp [processImages, h1, h2]

/-- Witness for C1 (amended): concrete single-image run dying with
`KeyError "EIT195"`. -/
theorem c1_witness :
    processJPEG2000Images [("EIT304", 3)] (fun _ => false)
      ["2008_10_01_120632_SOHO_EIT_EIT_195"] =
      .error (.keyError "EIT195") :=
  c1_unknownMeasurement_aborts.1 "2008_10_01_120632_SOHO_EIT_EIT_195" []
    [("EIT304", 3)] (fun _ => false)
    ⟨2008, 10, 1, 12, 6, 32, "SOHO", "EIT", "EIT", "195"⟩ rfl rfl

/-- Counterexample to C2: a filename whose detector field is the
non-alphanumeric `@@@` is not rejected with any parse error — with a
matching lookup entry its image row is inserted, so it does appear in a
subsequent insertion. -/
theorem c2_counterexample :
    processImages .filesystem "" [("@@@195", 9)] (fun _ => []) (fun _ => "")
      (fun _ => true) [("2008_10_01_120632_SOHO_EIT_@@@_195", ["08"])] 0 =
      .ok [(Stmt.imageInsert (some 0) 9 ⟨2008, 10, 1, 12, 6, 32⟩ "jpg",
        true)] := rfl

/-- C2 (amended): parsing performs no charset validation — a
non-alphanumeric detector field is accepted and flows into lookup and
insertion — and a filename whose numeric slice fails `int()` conversion
(e.g. one too short) raises an uncaught `ValueError` that aborts the whole
run instead of skipping the file with a warning. -/
theorem c2_parse_behavior :
    (∀ (m : StorageMethod) (b img : String) (zs : List String)
        (rest : List (String × List String)) (tbl : List (String × Int))
        (tf : String → List String) (rf : String → String)
        (cur : Stmt → Bool) (start : Int) (e : PyError),
      parseImageFields (pySplitPath img).2 = .error e →
      processImages m b tbl tf rf cur ((img, zs) :: rest) start =
        .error e) ∧
    parseImageFields "2008_10_01_120632_SOHO_EIT_@@@_195" =
      .ok ⟨2008, 10, 1, 12, 6, 32, "SOHO", "EIT", "@@@", "195"⟩ ∧
    parseImageFields "2008" = .error (.valueError "") := by
  refine ⟨?_, rfl, rfl⟩
  intro m b img zs rest tbl tf rf cur start e h
  simp [processImages, h]

/-- Witness for C2 (amended): a run whose first filename cannot be parsed
aborts with the `ValueError`, with no further processing. -/
theorem c2_witness :
    processImages .filesystem "" [("EIT195", 7)] (fun _ => [])
      (fun _ => "") (fun _ => true)
      [("xx", ["08"]), ("2008_10_01_120632_SOHO_EIT_EIT_195", ["08"])] 0 =
      .error (.valueError "xx") :=
  c2_parse_behavior.1 .filesystem "" "xx" ["08"]
    [("2008_10_01_120632_SOHO_EIT_EIT_195", ["08"])] [("EIT195", 7)]
    (fun _ => []) (fun _ => "") (fun _ => true) 0 (.valueError "xx") rfl

/-- Counterexample to C4: for the stem `abc_10` the grouping key is `abc` —
the trailing THREE characters (separator plus 2-character zoom) are
removed, not exactly the trailing 2-character zoom suffix, which would
give `abc_`. -/
theorem c4_counterexample :
    processMetaFiles ["abc_10"] = [("abc", ["10"])] ∧
    pyDropLast "abc_10" 2 = "abc_" ∧ ("abc" : String) ≠ "abc_" :=
  ⟨rfl, rfl, by decide⟩

/-- C4 (amended): for every metadata-file stem, the imageKey is the stem
with its trailing 3 characters removed (rejoined to its directory), the
zoomSuffix is the trailing 2 characters, and stems sharing an imageKey
accumulate their zoom suffixes into the single entry for that key (the key
list is duplicate-free). -/
theorem c4_grouping (meta : List String) (m : String) (hm : m ∈ meta) :
    (∃ vs, (pathJoin (pySplitPath m).1 (pyDropLast (pySplitPath m).2 3), vs)
        ∈ processMetaFiles meta ∧ pySuffix (pySplitPath m).2 2 ∈ vs) ∧
    ((processMetaFiles meta).map Prod.fst).Nodup :=
  ⟨processMetaFiles_mem_aux meta [] m hm,
    processMetaFiles_fold_nodup meta [] (by simp)⟩

/-- Witness for C4 (amended): two stems sharing the key `a/xyz` land in one
entry. -/
theorem c4_witness :
    (∃ vs, (("a/xyz" : String), vs) ∈
        processMetaFiles ["a/xyz_10", "a/xyz_12"] ∧ ("12" : String) ∈ vs) ∧
    ((processMetaFiles ["a/xyz_10", "a/xyz_12"]).map Prod.fst).Nodup :=
  c4_grouping ["a/xyz_10", "a/xyz_12"] "a/xyz_12" (by simp)

/-- Counterexample to C5: the lookup key built for the join row
`("C2", "WL", 5)` is the plain concatenation `C2WL`, not the zero-padded
`0C20WL` that fixed-width padding (`C2` → `0C2`) would produce. -/
theorem c5_counterexample :
    getMeasurementIds [("C2", "WL", 5)] = [("C2WL", 5)] ∧
    pyRjust "C2" 3 '0' ++ pyRjust "WL" 3 '0' = "0C20WL" ∧
    ("C2WL" : String) ≠ "0C20WL" :=
  ⟨rfl, rfl, by decide⟩

/-- C5 (amended): for every detector/measurement row returned by the store
join, the key of the in-memory lookup table is the PLAIN concatenation of
the detector abbreviation and the measurement abbreviation, with no
zero-padding applied by the code. -/
theorem c5_measurementKeys (rows : List (String × String × Int))
    (r : String × String × Int) (hr : r ∈ rows) :
    (r.1 ++ r.2.1) ∈ (getMeasurementIds rows).map Prod.fst :=
  getMeasurementIds_fold_mem rows [] r hr

/-- Witness for C5 (amended): the row `("C2", "WL", 5)` contributes the key
`C2WL`. -/
theorem c5_witness :
    ("C2" ++ "WL") ∈ (getMeasurementIds [("C2", "WL", 5)]).map Prod.fst :=
  c5_measurementKeys [("C2", "WL", 5)] ("C2", "WL", 5) (by simp)

/-- Counterexample to C9: the file `datameta` ends in `meta` but not in
`.meta`; the walk records the stem `root/dat` (the path minus its last
FIVE characters), which is not the path with a `.meta` suffix removed. -/
theorem c9_counterexample :
    traverseDirectory "root" [FSNode.file "datameta"] = (["root/dat"], []) ∧
    "root/dat" ++ ".meta" ≠ "root/datameta" :=
  ⟨rfl, by decide⟩

/-- C9 (amended): classification is by suffix on the joined path — trailing
`meta` yields the path minus its last 5 characters as a metadata stem
(which equals the path with `.meta` removed whenever the file really ends
in `.meta`), else trailing `jp2` yields the path minus its last 4
characters (the path with `.jp2` removed when it really ends in `.jp2`),
else the file is ignored; directories are recursed into. -/
theorem c9_traverseClassification (path name : String)
    (children : List FSNode) :
    (pySuffix (pathJoin path name) 4 = "meta" →
      traverseNode path (.file name) =
        ([pyDropLast (pathJoin path name) 5], [])) ∧
    (pySuffix (pathJoin path name) 4 ≠ "meta" →
      pySuffix (pathJoin path name) 3 = "jp2" →
      traverseNode path (.file name) =
        ([], [pyDropLast (pathJoin path name) 4])) ∧
    (pySuffix (pathJoin path name) 4 ≠ "meta" →
      pySuffix (pathJoin path name) 3 ≠ "jp2" →
      traverseNode path (.file name) = ([], [])) ∧
    traverseNode path (.dir name children) =
      traverseChildren (pathJoin path name) children ∧
    (pySuffix (pathJoin path name) 5 = ".meta" →
      pyDropLast (pathJoin path name) 5 ++ ".meta" = pathJoin path name) ∧
    (pySuffix (pathJoin path name) 4 = ".jp2" →
      pyDropLast (pathJoin path name) 4 ++ ".jp2" = pathJoin path name) := by
  refine ⟨?_, ?_, ?_, rfl, ?_, ?_⟩
  · intro h
    simp [traverseNode, h]
  · intro h1 h2
    simp [traverseNode, h1, h2]
  · intro h1 h2
    simp [traverseNode, h1, h2]
  · intro h
    have hs := pyDropLast_append_pySuffix (pathJoin path name) 5
    rw [h] at hs
    exact hs
  · intro h
    have hs := pyDropLast_append_pySuffix (pathJoin path name) 4
    rw [h] at hs
    exact hs

/-- Witness for C9 (amended): a file really ending in `.meta` yields the
path with `.meta` removed. -/
theorem c9_witness :
    traverseNode "d" (FSNode.file "a.meta") = (["d/a"], []) :=
  (c9_traverseClassification "d" "a.meta" []).1 rfl
